import Mathlib

/-!
Shallow embedding of the DataLakeQuality core pipeline
(backend/app/core: scoring.py, outliers.py, drift.py, contracts.py,
alerts.py; backend/app/utils/io.py) together with theorems settling the
frozen claims about it.

Modelling conventions:
* Python floats are modelled as exact rationals. Decimal literals such as
  0.3 become the rational 3/10.
* A pandas Series is modelled as a dtype tag plus a list of optional
  values (missing cells are none). A pandas DataFrame is the ordered list
  of named series.
* Population standard deviation (std, ddof = 0) is kept as its square
  (field std_sq below), which is rational; the source stores
  std = sqrt std_sq. Comparisons against std translate exactly:
  std = 0 iff std_sq = 0, and for std > 0 the z-score test
  abs (v - mean) / std > z is equivalent to (v - mean)^2 > z^2 * std_sq.
* The transcendental log of the PSI computation is Real.log, so the PSI
  portion of the drift analyzer lives in ℝ and is noncomputable; all
  other definitions are executable.
* On-disk stores (baseline files, contract files) are modelled as
  functions from dataset name to an optional stored value, passed and
  returned explicitly. A corrupted (unreadable) baseline file is loaded
  as none by the source, hence it is identified with an absent one.
* Human-readable message strings produced through Python f-string float
  formatting are abstracted into total helper functions of the same
  interpolated data; no claim inspects those texts. Field names ending
  in "ratio" are rendered with the suffix "rate".
-/

namespace DataLakeQuality

/-- Logical dtype of a pandas Series, as distinguished by
pd.api.types.is_integer_dtype / is_float_dtype / is_datetime64_any_dtype,
with obj standing for everything else (object/string). -/
inductive Dtype where
  | int
  | float
  | datetime
  | obj
  deriving DecidableEq

/-- A non-null cell value: a numeric value or a string. -/
inductive Val where
  | num : ℚ → Val
  | str : String → Val
  deriving DecidableEq

/-- A pandas Series: a dtype tag and the column values, none = missing. -/
structure Series where
  dtype : Dtype
  values : List (Option Val)
  deriving DecidableEq

/-- A pandas DataFrame: ordered named columns. -/
structure DataFrame where
  cols : List (String × Series)
  deriving DecidableEq

/-- Embeds app/utils/io.py infer_simple_type: map the pandas dtype to a
simple logical type following the source's if-chain precedence. -/
def infer_simple_type (s : Series) : String :=
  if s.dtype = Dtype.int then "integer"
  else if s.dtype = Dtype.float then "number"
  else if s.dtype = Dtype.datetime then "date"
  else "string"

/-- Embeds pandas Series.dropna followed by float coercion: the list of
non-null numeric values of the column, in order. -/
def Series.dropna (s : Series) : List ℚ :=
  s.values.filterMap fun v =>
    match v with
    | some (Val.num q) => some q
    | _ => none

/-- Embeds drift.py _is_numeric_series / pandas is_numeric_dtype. -/
def isNumeric : Dtype → Bool
  | Dtype.int => true
  | Dtype.float => true
  | _ => false

/-- Arithmetic mean of a list of rationals (0 for the empty list, via
division by zero in ℚ; the sources only take means of non-empty lists). -/
def listMean (l : List ℚ) : ℚ := l.sum / l.length

/-- Population variance (ddof = 0): the square of the population standard
deviation computed by numpy/pandas std(ddof=0). -/
def popVar (l : List ℚ) : ℚ :=
  (l.map (fun v => (v - listMean l) ^ 2)).sum / l.length

/-- Embeds app/core/scoring.py compute_quality_score. The six penalties
are subtracted from 100 in source order, the score is clamped to
[0, 100], and the label is derived from the clamped score. -/
def compute_quality_score (missing_rate duplicate_rate : ℚ)
    (contract_violations pii_column_count : ℕ)
    (overall_outlier_rate : ℚ) (has_drift : Bool) : ℚ × String :=
  let raw : ℚ :=
    100 - min (missing_rate * 100 * (3 / 10)) 30
      - min (duplicate_rate * 100 * (2 / 10)) 20
      - min ((contract_violations : ℚ) * 5) 25
      - min ((pii_column_count : ℚ) * 5) 20
      - min (overall_outlier_rate * 100 * (15 / 100)) 15
  let raw := if has_drift then raw - 10 else raw
  let score := max 0 (min 100 raw)
  (score, if score ≥ 80 then "GREEN" else if score ≥ 50 then "YELLOW" else "RED")

/-- Written from the words of claim C2 (spec section 4.6): 100 minus the
five capped penalties minus a flat 10 when drift is present, clamped to
[0, 100]. Used to compare the claimed formula with the source. -/
def claimedScore (missing_rate duplicate_rate : ℚ)
    (contract_violations pii_column_count : ℕ)
    (overall_outlier_rate : ℚ) (has_drift : Bool) : ℚ :=
  max 0 (min 100
    (100 - min (missing_rate * 100 * (3 / 10)) 30
      - min (duplicate_rate * 100 * (2 / 10)) 20
      - min ((contract_violations : ℚ) * 5) 25
      - min ((pii_column_count : ℚ) * 5) 20
      - min (overall_outlier_rate * 100 * (15 / 100)) 15
      - (if has_drift then 10 else 0)))

/-- Result row of app/core/outliers.py detect_outliers for one numeric
column. std_sq is the square of the stored std (see module comment). -/
structure OutlierColumn where
  column : String
  mean : ℚ
  std_sq : ℚ
  outlier_count : ℕ
  value_count : ℕ
  outlier_rate : ℚ
  severity : String
  deriving DecidableEq

/-- Overall result of detect_outliers. -/
structure OutlierReport where
  columns : List OutlierColumn
  total_outliers : ℕ
  total_numeric_values : ℕ
  overall_outlier_rate : ℚ
  deriving DecidableEq

/-- Embeds the per-column body of detect_outliers: mean and population
std over the non-null values; when std is zero the branch sets
outlier_count to 0, otherwise it counts values with z-score above
z_thresh. The z-score test abs (v - mean) / std > z is embedded in its
squared form (v - mean)^2 > z^2 * std_sq, exactly equivalent for
std > 0; the isnan(std) guard of the source cannot fire on a non-empty
list. -/
def outlierEntry (z_thresh : ℚ) (name : String) (s : Series) : OutlierColumn :=
  let vals := s.dropna
  let m := listMean vals
  let v := popVar vals
  let oc : ℕ :=
    if v = 0 then 0
    else (vals.filter fun x => decide ((x - m) ^ 2 > z_thresh ^ 2 * v)).length
  let vc := vals.length
  let rate : ℚ := if vc > 0 then (oc : ℚ) / (vc : ℚ) else 0
  let sev : String :=
    if rate = 0 then "none"
    else if rate < 1 / 100 then "low"
    else if rate < 5 / 100 then "medium"
    else "high"
  ⟨name, m, v, oc, vc, rate, sev⟩

/-- Embeds app/core/outliers.py detect_outliers: loop over numeric
columns with at least one non-null value, collecting per-column entries
and the dataset-level totals and overall rate. -/
def detect_outliers (df : DataFrame) (z_thresh : ℚ) : OutlierReport :=
  let numCols := df.cols.filter fun c => isNumeric c.2.dtype && !c.2.dropna.isEmpty
  let entries := numCols.map fun c => outlierEntry z_thresh c.1 c.2
  let totO := (entries.map OutlierColumn.outlier_count).sum
  let totV := (entries.map OutlierColumn.value_count).sum
  ⟨entries, totO, totV, if totV > 0 then (totO : ℚ) / (totV : ℚ) else 0⟩

/-- Policy block fail_on thresholds (contracts.py evaluate_policy); none
models an absent key, the empty list models an absent or empty
psi_severity_in entry (both falsy in the source). -/
structure FailOn where
  missing_rate_gt : Option ℚ
  duplicate_rate_gt : Option ℚ
  contract_violations_gt : Option ℤ
  overall_outlier_rate_gt : Option ℚ
  has_drift : Option Bool
  psi_severity_in : List String

/-- Policy block of a contract. -/
structure Policy where
  quality_threshold : Option ℚ
  fail_on : FailOn

/-- A data contract (contracts.py): schema expectations plus an optional
policy block. -/
structure Contract where
  dataset_name : String
  required_columns : List String
  column_types : List (String × String)
  unique_keys : List String
  policy : Option Policy

/-- A type mismatch reported by validate_contract. -/
structure TypeMismatch where
  column : String
  expected : String
  actual : String
  deriving DecidableEq

/-- A uniqueness violation reported by validate_contract. -/
structure UniqueViolation where
  column : String
  duplicate_count : ℕ
  deriving DecidableEq

/-- Result of contracts.py validate_contract. -/
structure ContractValidation where
  contract_name : String
  present : List String
  missing : List String
  type_mismatches : List TypeMismatch
  unique_violations : List UniqueViolation
  passed : Bool
  deriving DecidableEq

/-- Embeds pandas Series.duplicated().sum() as used by validate_contract:
the number of entries equal to an earlier entry of the list. Pandas
treats every NaN as equal to every other NaN here, so missing entries
(none) count as duplicates of each other; the count is the list length
minus the number of distinct entries. -/
def dupCount (l : List (Option Val)) : ℕ := l.length - l.dedup.length

/-- Written from the words of claim C6: the duplicate count among only
the non-null values of the column. -/
def nonNullDupCount (l : List (Option Val)) : ℕ :=
  dupCount (l.filterMap (fun v => v.map some))

/-- Embeds contracts.py validate_contract: required-column presence, type
mismatches against infer_simple_type, and uniqueness violations via
Series.duplicated().sum() on each declared unique key present in the
frame. -/
def validate_contract (df : DataFrame) (contract : Contract) : ContractValidation :=
  let existing := df.cols.map Prod.fst
  let missingReq := contract.required_columns.filter fun c => !existing.contains c
  let presentReq := contract.required_columns.filter fun c => existing.contains c
  let mismatches := contract.column_types.filterMap fun ct =>
    match df.cols.lookup ct.1 with
    | none => none
    | some s =>
      if ct.2 ≠ infer_simple_type s then some ⟨ct.1, ct.2, infer_simple_type s⟩ else none
  let uniqueViol := contract.unique_keys.filterMap fun col =>
    match df.cols.lookup col with
    | none => none
    | some s =>
      let d := dupCount s.values
      if d > 0 then some ⟨col, d⟩ else none
  ⟨contract.dataset_name, presentReq, missingReq, mismatches, uniqueViol,
    missingReq.isEmpty && mismatches.isEmpty && uniqueViol.isEmpty⟩

/-- Embeds numpy linspace a b num: num evenly spaced points from a to b
inclusive, point i being a + (b - a) * i / (num - 1). -/
def linspace (a b : ℚ) (num : ℕ) : List ℚ :=
  (List.range num).map fun i : ℕ => a + (b - a) * (i : ℚ) / ((num - 1 : ℕ) : ℚ)

/-- Minimum of a list of rationals (0 on the empty list; the sources only
apply it to non-empty lists). -/
def listMin : List ℚ → ℚ
  | [] => 0
  | h :: t => t.foldl min h

/-- Maximum of a list of rationals (0 on the empty list). -/
def listMax : List ℚ → ℚ
  | [] => 0
  | h :: t => t.foldl max h

/-- Lower edge of the baseline histogram range: the column minimum,
widened by 1/2 when all values are identical (drift.py lines 49-54). -/
def binLow (vals : List ℚ) : ℚ :=
  if listMin vals = listMax vals then listMin vals - 1 / 2 else listMin vals

/-- Upper edge of the baseline histogram range, widened likewise. -/
def binHigh (vals : List ℚ) : ℚ :=
  if listMin vals = listMax vals then listMax vals + 1 / 2 else listMax vals

/-- Bin index of a value for numpy histogram semantics over sorted edges:
bin i is the half-open interval from edge i to edge i+1, the final bin
being closed on the right; values outside the full range fall in no bin. -/
def binIndex : List ℚ → ℚ → Option ℕ
  | [], _ => none
  | [_], _ => none
  | a :: b :: rest, v =>
    if v < a then none
    else if v < b then some 0
    else if rest.isEmpty then (if v = b then some 0 else none)
    else (binIndex (b :: rest) v).map (· + 1)

/-- Embeds numpy histogram counts for the given edges. -/
def histCounts (edges : List ℚ) (values : List ℚ) : List ℕ :=
  (List.range (edges.length - 1)).map fun i =>
    (values.filter fun v => binIndex edges v == some i).length

/-- Embeds the shared percentage step of drift.py: bin counts divided by
their total, or all zeros when the total is zero. -/
def histPercents (edges : List ℚ) (values : List ℚ) : List ℚ :=
  let counts := histCounts edges values
  let total := counts.sum
  if total = 0 then List.replicate (edges.length - 1) 0
  else counts.map fun c : ℕ => (c : ℚ) / (total : ℚ)

/-- Baseline profile of one numeric column as persisted by drift.py
(_build_numeric_baseline): mean, std (kept as its square std_sq), value
count, histogram bin edges and bin percentages. -/
structure BaselineColumn where
  mean : ℚ
  std_sq : ℚ
  value_count : ℕ
  bins : List ℚ
  percents : List ℚ
  deriving DecidableEq

/-- A persisted baseline for a dataset name. The created_at timestamp of
the source is real time and is not modelled; no claim mentions it. -/
structure Baseline where
  dataset_name : String
  columns : List (String × BaselineColumn)
  deriving DecidableEq

/-- Baseline profile of one numeric column with at least one non-null
value (the body of the _build_numeric_baseline loop, n_bins = 5). -/
def baselineColumnOf (s : Series) : BaselineColumn :=
  let vals := s.dropna
  let m := listMean vals
  let sq : ℚ := if vals.length > 1 then popVar vals else 0
  let edges := linspace (binLow vals) (binHigh vals) 6
  ⟨m, sq, vals.length, edges, histPercents edges vals⟩

/-- Embeds drift.py _build_numeric_baseline: one entry per numeric column
whose non-null values are non-empty, in column order. -/
def build_numeric_baseline (df : DataFrame) : List (String × BaselineColumn) :=
  (df.cols.filter fun c => isNumeric c.2.dtype && !c.2.dropna.isEmpty).map
    fun c => (c.1, baselineColumnOf c.2)

/-- Embeds drift.py _compute_psi with eps = 1e-6: the terms are
(p_s - q_s) * log (p_s / q_s) over zipped current/baseline bin shares,
each floored at eps. Real.log embeds math.log. -/
noncomputable def compute_psi (baseline_percents current_percents : List ℚ) : ℝ :=
  ((current_percents.zip baseline_percents).map fun pq =>
    let pS := max pq.1 (1 / 1000000)
    let qS := max pq.2 (1 / 1000000)
    ((pS - qS : ℚ) : ℝ) * Real.log ((pS / qS : ℚ) : ℝ)).sum

/-- Embeds drift.py _psi_severity. -/
noncomputable def psi_severity (psi : ℝ) : String :=
  if psi < 1 / 10 then "none"
  else if psi < 1 / 4 then "moderate"
  else "severe"

/-- One entry of the drift report's columns list. -/
structure DriftEntry where
  column : String
  baseline_mean : Option ℚ
  current_mean : Option ℚ
  relative_change : Option ℚ
  psi : Option ℝ
  psi_severity : String
  drift : Bool

/-- Result of analyze_drift. -/
structure DriftResult where
  baseline_created : Bool
  has_drift : Bool
  columns : List DriftEntry

/-- Per-column body of the comparison loop of analyze_drift (baseline
present). Mirrors the source branch for branch: column absent from the
baseline; empty current values or degenerate stored bins/percents; bin
share shape mismatch; and the PSI path. -/
noncomputable def driftEntryOf (b : Baseline) (name : String) (s : Series) : DriftEntry :=
  match b.columns.lookup name with
  | none =>
    let vals := s.dropna
    ⟨name, none, some (if vals.isEmpty then 0 else listMean vals), none, none, "none", false⟩
  | some bc =>
    let vals := s.dropna
    if vals.isEmpty || bc.bins.isEmpty || bc.percents.isEmpty then
      ⟨name, some bc.mean, none, none, none, "none", false⟩
    else
      let curMean := listMean vals
      let curPercents := histPercents bc.bins vals
      let rel : Option ℚ :=
        if bc.mean ≠ 0 then some ((curMean - bc.mean) / bc.mean) else none
      if curPercents.length ≠ bc.percents.length then
        ⟨name, some bc.mean, some curMean, rel, none, "none", false⟩
      else
        let psiVal := compute_psi bc.percents curPercents
        ⟨name, some bc.mean, some curMean, rel, some psiVal, psi_severity psiVal,
          if psiVal > 1 / 4 then true else false⟩

/-- The baseline store: dataset name to optionally stored baseline. An
unreadable (corrupted) baseline file is loaded as none by _load_baseline
and is therefore identified with an absent one. -/
def BaselineStore := String → Option Baseline

/-- Embeds drift.py _save_baseline as a store update. -/
def saveBaseline (store : BaselineStore) (name : String) (b : Baseline) : BaselineStore :=
  fun n => if n = name then some b else store n

/-- Embeds drift.py analyze_drift, with the baseline store passed and
returned explicitly. First sight of a dataset name: build and persist a
baseline and return the fixed creation marker. Otherwise: compare every
numeric column of the frame against the stored baseline. -/
noncomputable def analyze_drift (dataset_name : String) (df : DataFrame)
    (store : BaselineStore) : DriftResult × BaselineStore :=
  match store dataset_name with
  | none =>
    let b : Baseline := ⟨dataset_name, build_numeric_baseline df⟩
    (⟨true, false, []⟩, saveBaseline store dataset_name b)
  | some b =>
    let numCols := df.cols.filter fun c => isNumeric c.2.dtype
    let entries := numCols.map fun c => driftEntryOf b c.1 c.2
    (⟨false, entries.any DriftEntry.drift, entries⟩, store)

/-- Dataset summary fields read by evaluate_policy (summary.get with a
default, so every field is present with the source's default). -/
structure Summary where
  missing_rate : ℚ
  duplicate_rate : ℚ
  contract_violations : ℤ
  overall_outlier_rate : ℚ
  has_drift : Bool

/-- One descriptive failure string of evaluate_policy, modelled as a
constructor carrying exactly the data the source interpolates into the
corresponding f-string. -/
inductive PolicyFailure where
  | qualityBelowThreshold (score threshold : ℚ)
  | missingRate (value threshold : ℚ)
  | duplicateRate (value threshold : ℚ)
  | contractViolations (value threshold : ℤ)
  | outlierRate (value threshold : ℚ)
  | hasDrift
  | psiSeverity (column sev : String) (psi : Option ℝ)

/-- Verdict of evaluate_policy. -/
structure PolicyVerdict where
  pipeline_passed : Bool
  failures : List PolicyFailure

/-- Embeds contracts.py evaluate_policy: no contract or no policy block
always passes; otherwise the configured rules are evaluated in source
order, each appending one failure, the PSI-severity rule stopping at the
first matching drift column. -/
def evaluate_policy (contract : Option Contract) (quality_score : ℚ)
    (summary : Summary) (drift : DriftResult) : PolicyVerdict :=
  match contract with
  | none => ⟨true, []⟩
  | some c =>
    match c.policy with
    | none => ⟨true, []⟩
    | some pol =>
      let fo := pol.fail_on
      let f0 : List PolicyFailure := []
      let f1 := match pol.quality_threshold with
        | some t => if quality_score < t then f0 ++ [.qualityBelowThreshold quality_score t] else f0
        | none => f0
      let f2 := match fo.missing_rate_gt with
        | some t => if summary.missing_rate > t then f1 ++ [.missingRate summary.missing_rate t] else f1
        | none => f1
      let f3 := match fo.duplicate_rate_gt with
        | some t => if summary.duplicate_rate > t then f2 ++ [.duplicateRate summary.duplicate_rate t] else f2
        | none => f2
      let f4 := match fo.contract_violations_gt with
        | some t => if summary.contract_violations > t then f3 ++ [.contractViolations summary.contract_violations t] else f3
        | none => f3
      let f5 := match fo.overall_outlier_rate_gt with
        | some t => if summary.overall_outlier_rate > t then f4 ++ [.outlierRate summary.overall_outlier_rate t] else f4
        | none => f4
      let f6 := match fo.has_drift with
        | some true => if summary.has_drift then f5 ++ [.hasDrift] else f5
        | _ => f5
      let f7 :=
        if fo.psi_severity_in.isEmpty then f6
        else
          match drift.columns.find? (fun e => fo.psi_severity_in.contains e.psi_severity) with
          | some e => f6 ++ [.psiSeverity e.column e.psi_severity e.psi]
          | none => f6
      ⟨f7.isEmpty, f7⟩

/-- Result of persist_contract_suggestion (the path field, a filesystem
detail, is not modelled). -/
structure PersistResult where
  saved : Bool
  contract_yaml : String
  note : String
  deriving DecidableEq

/-- The contract file store: dataset name to the stored YAML text. -/
def ContractStore := String → Option String

/-- Update of the contract store at one name. -/
def saveContract (store : ContractStore) (name : String) (text : String) : ContractStore :=
  fun n => if n = name then some text else store n

/-- Serialization of a contract as done by yaml.safe_dump, an external
library; the exact YAML text is abstracted into a definite encoding,
which no claim inspects beyond equality with the stored text. -/
def contract_yaml_of (c : Contract) : String :=
  "dataset_name: " ++ c.dataset_name ++ "\nrequired_columns: "
    ++ String.intercalate ", " c.required_columns
    ++ "\nunique_keys: " ++ String.intercalate ", " c.unique_keys ++ "\n"

/-- Embeds contracts.py persist_contract_suggestion: if a contract file
for the dataset name exists and overwrite is false, return the existing
text unsaved; otherwise write the serialized contract. -/
def persist_contract_suggestion (contract : Contract) (overwrite : Bool)
    (store : ContractStore) : PersistResult × ContractStore :=
  let name := contract.dataset_name
  match store name with
  | some existing =>
    if overwrite then
      let y := contract_yaml_of contract
      (⟨true, y, "Contract file created/overwritten on disk."⟩, saveContract store name y)
    else
      (⟨false, existing, "Contract file already exists; returning existing contract without overwriting."⟩, store)
  | none =>
    let y := contract_yaml_of contract
    (⟨true, y, "Contract file created/overwritten on disk."⟩, saveContract store name y)

/-- An alert emitted by alerts.py build_alerts. -/
structure Alert where
  level : String
  code : String
  message : String
  deriving DecidableEq

/-- Python string truthiness on an optional string field: a present,
non-empty string. -/
def strTruthy (o : Option String) : Option String :=
  match o with
  | some s => if s = "" then none else some s
  | none => none

/-- One column entry of the report consumed by build_alerts, with the
keys the source reads (absent keys are none). -/
structure ReportColumn where
  name : Option String
  column : Option String
  drift_severity : Option String
  psi : Option ℚ
  pii_type : Option String
  missing_rate : Option ℚ

/-- Summary sub-mapping of the report consumed by build_alerts. -/
structure ReportSummary where
  missing_rate : Option ℚ
  duplicate_rate : Option ℚ

/-- One policy_failures entry of the report consumed by build_alerts. -/
structure PolicyFailureEntry where
  code : Option String
  message : Option String

/-- The report mapping consumed by build_alerts, with exactly the keys
the source reads; none models an absent key. -/
structure Report where
  summary : Option ReportSummary
  missing_rate : Option ℚ
  outlier_rate : Option ℚ
  overall_outlier_rate : Option ℚ
  columns : List ReportColumn
  pii_columns : List (Option String)
  pii_column_count : Option ℕ
  has_pii : Option Bool
  policy_failures : List PolicyFailureEntry
  policy_passed : Option Bool

/-- Message text helpers: the source interpolates numbers into its
messages with f-string float formatting; the texts are abstracted into
total functions of the same data (no claim inspects them). -/
def msgHighMissing (r : ℚ) : String :=
  "Overall missing ratio is " ++ toString r ++ ", which is above the 5% threshold."

/-- Message of the HIGH_OUTLIER_RATIO alert. -/
def msgHighOutlier (r : ℚ) : String :=
  "Overall outlier ratio is " ++ toString r ++ ", which is above the 5% threshold."

/-- Message of the HIGH_DUPLICATE_RATIO alert. -/
def msgHighDuplicate (r : ℚ) : String :=
  "Duplicate row ratio is " ++ toString r ++ ", which is above the 2% threshold."

/-- Message of the DRIFT_DETECTED alert. -/
def msgDrift (name sev : String) (psi : Option ℚ) : String :=
  "Drift detected on column " ++ name ++ " (severity = " ++ sev ++
    (match psi with
     | some p => ", PSI = " ++ toString p
     | none => "") ++ ")."

/-- Message of the PII_DETECTED_COLUMN alert. -/
def msgPiiColumn (piiType name : String) : String :=
  "PII of type " ++ piiType ++ " detected in column " ++ name ++ "."

/-- Message of the COLUMN_MISSING_HIGH alert. -/
def msgColumnMissing (name : String) (r : ℚ) : String :=
  "Column " ++ name ++ " has missing ratio " ++ toString r ++ "."

/-- Message of the named PII_DETECTED alert (sorted deduplicated column
names; the sort and dedup of the source are kept). -/
def msgPiiNames (names : List String) : String :=
  "PII patterns detected in columns: "
    ++ String.intercalate ", " ((names.dedup.mergeSort (· ≤ ·)))

/-- Whether the drift alert rule of build_alerts fires for a column:
drift_severity is moderate or severe. -/
def driftSevFires (c : ReportColumn) : Bool :=
  match c.drift_severity with
  | some s => s = "moderate" || s = "severe"
  | none => false

/-- Per-column alerts of build_alerts, in source order: drift alert, then
column-level PII alert, then high-missingness alert. -/
def columnAlerts (c : ReportColumn) : List Alert :=
  let nm := ((strTruthy c.name).orElse fun _ => strTruthy c.column).getD "<unknown>"
  let driftA : List Alert :=
    match c.drift_severity with
    | some s =>
      if s = "moderate" || s = "severe" then
        [⟨if s = "severe" then "error" else "warning", "DRIFT_DETECTED", msgDrift nm s c.psi⟩]
      else []
    | none => []
  let piiA : List Alert :=
    match strTruthy c.pii_type with
    | some t => [⟨"warning", "PII_DETECTED_COLUMN", msgPiiColumn t nm⟩]
    | none => []
  let missA : List Alert :=
    match c.missing_rate with
    | some r => if r > 5 / 100 then [⟨"warning", "COLUMN_MISSING_HIGH", msgColumnMissing nm r⟩] else []
    | none => []
  driftA ++ piiA ++ missA

/-- The effective dataset-level missing ratio read by build_alerts: the
top-level key first, then the summary key, default 0. -/
def missingRateOf (r : Report) : ℚ :=
  ((r.missing_rate).orElse fun _ => (r.summary.getD ⟨none, none⟩).missing_rate).getD 0

/-- The effective dataset-level outlier ratio read by build_alerts (the
top-level keys only). -/
def outlierRateOf (r : Report) : ℚ :=
  ((r.outlier_rate).orElse fun _ => r.overall_outlier_rate).getD 0

/-- The effective duplicate ratio read by build_alerts (summary only). -/
def duplicateRateOf (r : Report) : ℚ :=
  (r.summary.getD ⟨none, none⟩).duplicate_rate.getD 0

/-- The has_pii disjunction of build_alerts: the has_pii flag, a positive
pii_column_count, or a non-empty pii_columns list. -/
def hasPiiOf (r : Report) : Bool :=
  r.has_pii.getD false || decide (r.pii_column_count.getD 0 > 0) || !r.pii_columns.isEmpty

/-- PII summary alerts of build_alerts. -/
def piiAlerts (r : Report) : List Alert :=
  if hasPiiOf r then
    let names := r.pii_columns.filterMap strTruthy
    if names.isEmpty then
      [⟨"warning", "PII_DETECTED", "PII patterns detected in this dataset."⟩]
    else
      [⟨"warning", "PII_DETECTED", msgPiiNames names⟩]
  else []

/-- Policy alerts of build_alerts: one error per policy_failures entry,
plus the PIPELINE_FAILED fallback when the policy failed with no listed
failures. -/
def policyAlerts (r : Report) : List Alert :=
  let perFailure := r.policy_failures.map fun p =>
    (⟨"error", "POLICY_" ++ (p.code.getD "UNKNOWN").toUpper,
      p.message.getD "Policy failure"⟩ : Alert)
  let fallback : List Alert :=
    if !r.policy_passed.getD true && r.policy_failures.isEmpty then
      [⟨"error", "PIPELINE_FAILED",
        "Pipeline did not pass the policy engine, but no specific failures were listed."⟩]
    else []
  perFailure ++ fallback

/-- The ALL_GOOD informational alert. -/
def allGoodAlert : Alert :=
  ⟨"info", "ALL_GOOD", "No significant data quality issues detected in this run."⟩

/-- Embeds alerts.py build_alerts: dataset-level threshold alerts, the
per-column alerts, the PII summary alerts and the policy alerts, in
source append order; when nothing fired, the single ALL_GOOD alert. -/
def build_alerts (r : Report) : List Alert :=
  let a1 : List Alert :=
    if missingRateOf r > 5 / 100 then
      [⟨"warning", "HIGH_MISSING_RATIO", msgHighMissing (missingRateOf r)⟩] else []
  let a2 : List Alert :=
    if outlierRateOf r > 5 / 100 then
      [⟨"warning", "HIGH_OUTLIER_RATIO", msgHighOutlier (outlierRateOf r)⟩] else []
  let a3 : List Alert :=
    if duplicateRateOf r > 2 / 100 then
      [⟨"warning", "HIGH_DUPLICATE_RATIO", msgHighDuplicate (duplicateRateOf r)⟩] else []
  let colA := (r.columns.map columnAlerts).flatten
  let alerts := a1 ++ a2 ++ a3 ++ colA ++ piiAlerts r ++ policyAlerts r
  if alerts.isEmpty then [allGoodAlert] else alerts

/-- Written from the words of claim C5: all non-null values of the
column are whole numbers. -/
def allNonNullWhole (s : Series) : Bool :=
  s.values.all fun v =>
    match v with
    | some (Val.num q) => decide (q.den = 1)
    | some (Val.str _) => false
    | none => true

/-! Shared helper lemmas. -/

/-- Closed form of the score component of compute_quality_score. -/
lemma score_fst_eq (mr dr : ℚ) (cv pii : ℕ) (orr : ℚ) (hd : Bool) :
    (compute_quality_score mr dr cv pii orr hd).1 =
      max 0 (min 100
        (100 - min (mr * 100 * (3 / 10)) 30 - min (dr * 100 * (2 / 10)) 20
          - min ((cv : ℚ) * 5) 25 - min ((pii : ℚ) * 5) 20
          - min (orr * 100 * (15 / 100)) 15 - (if hd then 10 else 0))) := by
  cases hd <;> simp [compute_quality_score]

/-- Closed form of the label component of compute_quality_score. -/
lemma score_snd_eq (mr dr : ℚ) (cv pii : ℕ) (orr : ℚ) (hd : Bool) :
    (compute_quality_score mr dr cv pii orr hd).2 =
      (if 80 ≤ (compute_quality_score mr dr cv pii orr hd).1 then "GREEN"
       else if 50 ≤ (compute_quality_score mr dr cv pii orr hd).1 then "YELLOW"
       else "RED") := rfl

/-- Clamping to [0, 100] is monotone. -/
lemma clamp_mono {x y : ℚ} (h : x ≤ y) :
    max 0 (min 100 x) ≤ max 0 (min 100 y) :=
  max_le_max le_rfl (min_le_min le_rfl h)

/-- The bin share list always has one entry per histogram bin. -/
lemma histPercents_length (edges : List ℚ) (values : List ℚ) :
    (histPercents edges values).length = edges.length - 1 := by
  unfold histPercents
  dsimp only
  split
  · exact List.length_replicate _ _
  · rw [List.length_map]
    unfold histCounts
    rw [List.length_map, List.length_range]

/-- Element i of linspace a b n, for i < n. -/
lemma linspace_getD (a b : ℚ) (n i : ℕ) (hi : i < n) :
    (linspace a b n).getD i 0 = a + (b - a) * (i : ℚ) / ((n - 1 : ℕ) : ℚ) := by
  unfold linspace
  rw [List.getD_eq_getElem?_getD, List.getElem?_map, List.getElem?_range hi]
  rfl

/-! Theorems for the claims. -/

/-- Claim C2: compute_quality_score returns the score
100 - min(missing*100*0.3, 30) - min(duplicate*100*0.2, 20)
- min(violations*5, 25) - min(pii*5, 20) - min(outlier*100*0.15, 15)
- (10 when drift), clamped to [0, 100]; the label is GREEN iff
score ≥ 80, YELLOW iff 50 ≤ score < 80, RED iff score < 50. -/
theorem quality_score_formula_and_label (mr dr : ℚ) (cv pii : ℕ) (orr : ℚ) (hd : Bool) :
    (compute_quality_score mr dr cv pii orr hd).1 = claimedScore mr dr cv pii orr hd
    ∧ ((compute_quality_score mr dr cv pii orr hd).2 = "GREEN"
        ↔ 80 ≤ (compute_quality_score mr dr cv pii orr hd).1)
    ∧ ((compute_quality_score mr dr cv pii orr hd).2 = "YELLOW"
        ↔ 50 ≤ (compute_quality_score mr dr cv pii orr hd).1
          ∧ (compute_quality_score mr dr cv pii orr hd).1 < 80)
    ∧ ((compute_quality_score mr dr cv pii orr hd).2 = "RED"
        ↔ (compute_quality_score mr dr cv pii orr hd).1 < 50) := by
  have hfst : (compute_quality_score mr dr cv pii orr hd).1 = claimedScore mr dr cv pii orr hd := by
    rw [score_fst_eq]; cases hd <;> simp [claimedScore]
  refine ⟨hfst, ?_, ?_, ?_⟩ <;> rw [score_snd_eq]
  · rcases le_or_lt 80 (compute_quality_score mr dr cv pii orr hd).1 with h80 | h80
    · rw [if_pos h80]
      exact iff_of_true rfl h80
    · rw [if_neg (not_le.mpr h80)]
      rcases le_or_lt 50 (compute_quality_score mr dr cv pii orr hd).1 with h50 | h50
      · rw [if_pos h50]
        exact iff_of_false (by decide) (by intro hle; linarith)
      · rw [if_neg (not_le.mpr h50)]
        exact iff_of_false (by decide) (by intro hle; linarith)
  · rcases le_or_lt 80 (compute_quality_score mr dr cv pii orr hd).1 with h80 | h80
    · rw [if_pos h80]
      exact iff_of_false (by decide) (by rintro ⟨-, hlt⟩; linarith)
    · rw [if_neg (not_le.mpr h80)]
      rcases le_or_lt 50 (compute_quality_score mr dr cv pii orr hd).1 with h50 | h50
      · rw [if_pos h50]
        exact iff_of_true rfl ⟨h50, h80⟩
      · rw [if_neg (not_le.mpr h50)]
        exact iff_of_false (by decide) (by rintro ⟨h5, -⟩; linarith)
  · rcases le_or_lt 80 (compute_quality_score mr dr cv pii orr hd).1 with h80 | h80
    · rw [if_pos h80]
      exact iff_of_false (by decide) (by intro hlt; linarith)
    · rw [if_neg (not_le.mpr h80)]
      rcases le_or_lt 50 (compute_quality_score mr dr cv pii orr hd).1 with h50 | h50
      · rw [if_pos h50]
        exact iff_of_false (by decide) (by intro hlt; linarith)
      · rw [if_neg (not_le.mpr h50)]
        exact iff_of_true rfl h50

/-- Claim C7: the returned score is non-increasing when any single one
of the six inputs increases with the other five fixed, and always lies
in [0, 100]. -/
theorem quality_score_monotone_and_bounded :
    (∀ mr mr2 dr : ℚ, ∀ cv pii : ℕ, ∀ orr : ℚ, ∀ hd : Bool, mr ≤ mr2 →
      (compute_quality_score mr2 dr cv pii orr hd).1
        ≤ (compute_quality_score mr dr cv pii orr hd).1)
    ∧ (∀ mr dr dr2 : ℚ, ∀ cv pii : ℕ, ∀ orr : ℚ, ∀ hd : Bool, dr ≤ dr2 →
      (compute_quality_score mr dr2 cv pii orr hd).1
        ≤ (compute_quality_score mr dr cv pii orr hd).1)
    ∧ (∀ mr dr : ℚ, ∀ cv cv2 pii : ℕ, ∀ orr : ℚ, ∀ hd : Bool, cv ≤ cv2 →
      (compute_quality_score mr dr cv2 pii orr hd).1
        ≤ (compute_quality_score mr dr cv pii orr hd).1)
    ∧ (∀ mr dr : ℚ, ∀ cv pii pii2 : ℕ, ∀ orr : ℚ, ∀ hd : Bool, pii ≤ pii2 →
      (compute_quality_score mr dr cv pii2 orr hd).1
        ≤ (compute_quality_score mr dr cv pii orr hd).1)
    ∧ (∀ mr dr : ℚ, ∀ cv pii : ℕ, ∀ orr orr2 : ℚ, ∀ hd : Bool, orr ≤ orr2 →
      (compute_quality_score mr dr cv pii orr2 hd).1
        ≤ (compute_quality_score mr dr cv pii orr hd).1)
    ∧ (∀ mr dr : ℚ, ∀ cv pii : ℕ, ∀ orr : ℚ,
      (compute_quality_score mr dr cv pii orr true).1
        ≤ (compute_quality_score mr dr cv pii orr false).1)
    ∧ (∀ mr dr : ℚ, ∀ cv pii : ℕ, ∀ orr : ℚ, ∀ hd : Bool,
      0 ≤ (compute_quality_score mr dr cv pii orr hd).1
        ∧ (compute_quality_score mr dr cv pii orr hd).1 ≤ 100) := by
  refine ⟨?_, ?_, ?_, ?_, ?_, ?_, ?_⟩
  · intro mr mr2 dr cv pii orr hd h
    rw [score_fst_eq, score_fst_eq]
    apply clamp_mono
    have hm : min (mr * 100 * (3 / 10)) 30 ≤ min (mr2 * 100 * (3 / 10)) 30 :=
      min_le_min (by linarith) le_rfl
    linarith
  · intro mr dr dr2 cv pii orr hd h
    rw [score_fst_eq, score_fst_eq]
    apply clamp_mono
    have hm : min (dr * 100 * (2 / 10)) 20 ≤ min (dr2 * 100 * (2 / 10)) 20 :=
      min_le_min (by linarith) le_rfl
    linarith
  · intro mr dr cv cv2 pii orr hd h
    rw [score_fst_eq, score_fst_eq]
    apply clamp_mono
    have hc : (cv : ℚ) ≤ (cv2 : ℚ) := Nat.cast_le.mpr h
    have hm : min ((cv : ℚ) * 5) 25 ≤ min ((cv2 : ℚ) * 5) 25 :=
      min_le_min (by linarith) le_rfl
    linarith
  · intro mr dr cv pii pii2 orr hd h
    rw [score_fst_eq, score_fst_eq]
    apply clamp_mono
    have hc : (pii : ℚ) ≤ (pii2 : ℚ) := Nat.cast_le.mpr h
    have hm : min ((pii : ℚ) * 5) 20 ≤ min ((pii2 : ℚ) * 5) 20 :=
      min_le_min (by linarith) le_rfl
    linarith
  · intro mr dr cv pii orr orr2 hd h
    rw [score_fst_eq, score_fst_eq]
    apply clamp_mono
    have hm : min (orr * 100 * (15 / 100)) 15 ≤ min (orr2 * 100 * (15 / 100)) 15 :=
      min_le_min (by linarith) le_rfl
    linarith
  · intro mr dr cv pii orr
    rw [score_fst_eq, score_fst_eq]
    apply clamp_mono
    simp only [Bool.false_eq_true, if_true, if_false, reduceIte]
    linarith
  · intro mr dr cv pii orr hd
    rw [score_fst_eq]
    exact ⟨le_max_left 0 _, max_le (by norm_num) (min_le_left _ _)⟩

/-- Witness for claim C7: each monotonicity clause applied at a concrete
increase of one input. -/
theorem quality_score_monotone_witness :
    ((compute_quality_score 1 0 0 0 0 false).1 ≤ (compute_quality_score 0 0 0 0 0 false).1)
    ∧ ((compute_quality_score 0 1 0 0 0 false).1 ≤ (compute_quality_score 0 0 0 0 0 false).1)
    ∧ ((compute_quality_score 0 0 1 0 0 false).1 ≤ (compute_quality_score 0 0 0 0 0 false).1)
    ∧ ((compute_quality_score 0 0 0 1 0 false).1 ≤ (compute_quality_score 0 0 0 0 0 false).1)
    ∧ ((compute_quality_score 0 0 0 0 1 false).1 ≤ (compute_quality_score 0 0 0 0 0 false).1)
    ∧ ((compute_quality_score 0 0 0 0 0 true).1 ≤ (compute_quality_score 0 0 0 0 0 false).1) :=
  ⟨quality_score_monotone_and_bounded.1 0 1 0 0 0 0 false (by norm_num),
    quality_score_monotone_and_bounded.2.1 0 0 1 0 0 0 false (by norm_num),
    quality_score_monotone_and_bounded.2.2.1 0 0 0 1 0 0 false (Nat.zero_le 1),
    quality_score_monotone_and_bounded.2.2.2.1 0 0 0 0 1 0 false (Nat.zero_le 1),
    quality_score_monotone_and_bounded.2.2.2.2.1 0 0 0 0 0 1 false (by norm_num),
    quality_score_monotone_and_bounded.2.2.2.2.2.1 0 0 0 0 0⟩

/-- Claim C4: when the contract's policy block configures only
fail_on.missing_ratio_gt = 0.1 (no quality_threshold, no other rule) and
the summary's missing ratio is 0.15, evaluate_policy returns
pipeline_passed = false with exactly one failure, and that failure
references the missing ratio. -/
theorem policy_missing_rate_single_failure (c : Contract) (score : ℚ)
    (summary : Summary) (drift : DriftResult)
    (hp : c.policy = some ⟨none, ⟨some (1 / 10), none, none, none, none, []⟩⟩)
    (hm : summary.missing_rate = 15 / 100) :
    evaluate_policy (some c) score summary drift =
      ⟨false, [PolicyFailure.missingRate (15 / 100) (1 / 10)]⟩
    ∧ (evaluate_policy (some c) score summary drift).failures.length = 1
    ∧ ∀ f ∈ (evaluate_policy (some c) score summary drift).failures,
        ∃ v t, f = PolicyFailure.missingRate v t := by
  have h1 : evaluate_policy (some c) score summary drift =
      ⟨false, [PolicyFailure.missingRate (15 / 100) (1 / 10)]⟩ := by
    simp only [evaluate_policy, hp, hm]
    norm_num
  refine ⟨h1, by rw [h1]; rfl, ?_⟩
  rw [h1]
  intro f hf
  exact ⟨15 / 100, 1 / 10, by simpa using hf⟩

/-- Witness for claim C4 at a concrete contract, summary and drift
result. -/
theorem policy_missing_rate_single_failure_witness :
    evaluate_policy
        (some ⟨"orders", [], [], [], some ⟨none, ⟨some (1 / 10), none, none, none, none, []⟩⟩⟩)
        90 ⟨15 / 100, 0, 0, 0, false⟩ ⟨false, false, []⟩ =
      ⟨false, [PolicyFailure.missingRate (15 / 100) (1 / 10)]⟩ :=
  (policy_missing_rate_single_failure
    ⟨"orders", [], [], [], some ⟨none, ⟨some (1 / 10), none, none, none, none, []⟩⟩⟩
    90 ⟨15 / 100, 0, 0, 0, false⟩ ⟨false, false, []⟩ rfl rfl).1

/-- Claim C10: when a contract file for the dataset name exists,
persist_contract_suggestion without overwrite returns saved = false with
the existing stored text and leaves the store unchanged; the store is
rewritten exactly when overwrite is true or no file exists, and only the
entry for that dataset name ever changes. -/
theorem persist_contract_respects_overwrite (contract : Contract) (store : ContractStore) :
    (∀ existing, store contract.dataset_name = some existing →
      persist_contract_suggestion contract false store =
        (⟨false, existing,
          "Contract file already exists; returning existing contract without overwriting."⟩,
         store))
    ∧ (store contract.dataset_name = none →
      (persist_contract_suggestion contract false store).2 contract.dataset_name =
          some (contract_yaml_of contract)
        ∧ (persist_contract_suggestion contract false store).1.saved = true)
    ∧ ((persist_contract_suggestion contract true store).2 contract.dataset_name =
          some (contract_yaml_of contract)
        ∧ (persist_contract_suggestion contract true store).1.saved = true)
    ∧ (∀ ov : Bool, (persist_contract_suggestion contract ov store).2 ≠ store →
        ov = true ∨ store contract.dataset_name = none)
    ∧ (∀ ov : Bool, ∀ n, n ≠ contract.dataset_name →
        (persist_contract_suggestion contract ov store).2 n = store n) := by
  refine ⟨?_, ?_, ?_, ?_, ?_⟩
  · intro existing hex
    simp [persist_contract_suggestion, hex]
  · intro hnone
    simp [persist_contract_suggestion, hnone, saveContract]
  · cases hex : store contract.dataset_name with
    | none => simp [persist_contract_suggestion, hex, saveContract]
    | some existing => simp [persist_contract_suggestion, hex, saveContract]
  · intro ov hne
    by_contra hcon
    push_neg at hcon
    obtain ⟨hov, hsome⟩ := hcon
    cases hex : store contract.dataset_name with
    | none => exact hsome hex
    | some existing =>
      apply hne
      cases ov with
      | true => exact absurd rfl hov
      | false => simp [persist_contract_suggestion, hex]
  · intro ov n hn
    cases hex : store contract.dataset_name with
    | none =>
      cases ov <;> simp [persist_contract_suggestion, hex, saveContract, hn]
    | some existing =>
      cases ov <;> simp [persist_contract_suggestion, hex, saveContract, hn]

/-- Witness for claim C10: a store already holding a contract file for
the dataset name, exercised without overwrite. -/
theorem persist_contract_respects_overwrite_witness :
    persist_contract_suggestion ⟨"orders", [], [], [], none⟩ false
        (fun n => if n = "orders" then some "old text" else none) =
      (⟨false, "old text",
        "Contract file already exists; returning existing contract without overwriting."⟩,
       fun n => if n = "orders" then some "old text" else none) :=
  (persist_contract_respects_overwrite ⟨"orders", [], [], [], none⟩
    (fun n => if n = "orders" then some "old text" else none)).1 "old text" rfl

/-- Claim C8: a numeric column whose non-null values have population
standard deviation zero is reported with outlier_count = 0 whatever its
values, and the z-score branch runs only with a non-zero standard
deviation: every reported entry with a non-zero outlier count has a
non-zero stored std. An empty column yields no report row at all, and a
non-empty one always has a defined (zero) population std, so the
"undefined" case of the claim cannot arise. -/
theorem outliers_zero_std_zero_count :
    (∀ df : DataFrame, ∀ z : ℚ, ∀ name s, (name, s) ∈ df.cols →
      isNumeric s.dtype = true → s.dropna ≠ [] → popVar s.dropna = 0 →
      outlierEntry z name s ∈ (detect_outliers df z).columns
        ∧ (outlierEntry z name s).outlier_count = 0)
    ∧ (∀ df : DataFrame, ∀ z : ℚ, ∀ e ∈ (detect_outliers df z).columns,
        e.outlier_count ≠ 0 → e.std_sq ≠ 0) := by
  constructor
  · intro df z name s hmem hnum hne hvar
    constructor
    · apply List.mem_map.mpr
      refine ⟨(name, s), List.mem_filter.mpr ⟨hmem, ?_⟩, rfl⟩
      simp [hnum, List.isEmpty_iff, hne]
    · simp [outlierEntry, hvar]
  · intro df z e he hoc
    obtain ⟨c, hc, rfl⟩ := List.mem_map.mp he
    intro hsq
    have hv : popVar c.2.dropna = 0 := by simpa [outlierEntry] using hsq
    exact hoc (by simp [outlierEntry, hv])

/-- Witness for claim C8: a constant numeric column. -/
theorem outliers_zero_std_zero_count_witness :
    (outlierEntry 3 "x" ⟨Dtype.int, [some (Val.num 5), some (Val.num 5)]⟩).outlier_count = 0
    ∧ outlierEntry 3 "x" ⟨Dtype.int, [some (Val.num 5), some (Val.num 5)]⟩ ∈
        (detect_outliers ⟨[("x", ⟨Dtype.int, [some (Val.num 5), some (Val.num 5)]⟩)]⟩ 3).columns := by
  have h := outliers_zero_std_zero_count.1
    ⟨[("x", ⟨Dtype.int, [some (Val.num 5), some (Val.num 5)]⟩)]⟩ 3 "x"
    ⟨Dtype.int, [some (Val.num 5), some (Val.num 5)]⟩
    (by decide) (by decide) (by decide)
    (by simp [popVar, listMean, Series.dropna])
  exact ⟨h.2, h.1⟩

/-- Claim C5 counterexample: a float-dtype column holding the whole
number 1 and one missing cell (exactly what pandas produces for an
integer CSV column containing a null) has all non-null values whole,
yet infer_simple_type reports "number", not "integer" as the claim
requires. -/
theorem infer_type_whole_values_not_integer :
    allNonNullWhole ⟨Dtype.float, [some (Val.num 1), none]⟩ = true
    ∧ infer_simple_type ⟨Dtype.float, [some (Val.num 1), none]⟩ = "number"
    ∧ infer_simple_type ⟨Dtype.float, [some (Val.num 1), none]⟩ ≠ "integer" := by
  refine ⟨by decide, rfl, by decide⟩

/-- Claim C5 amended: the inferred logical type depends only on the
pandas dtype, by the source's precedence: "integer" iff the column has
an integer dtype, "number" iff it has a float dtype (even when all its
non-null values are whole numbers, as when nulls force a float dtype),
"date" iff it has a datetime dtype, and "string" otherwise. -/
theorem infer_type_follows_dtype (s : Series) :
    (infer_simple_type s = "integer" ↔ s.dtype = Dtype.int)
    ∧ (infer_simple_type s = "number" ↔ s.dtype = Dtype.float)
    ∧ (infer_simple_type s = "date" ↔ s.dtype = Dtype.datetime)
    ∧ (infer_simple_type s = "string" ↔ s.dtype = Dtype.obj) := by
  obtain ⟨d, vs⟩ := s
  cases d <;> refine ⟨?_, ?_, ?_, ?_⟩ <;> simp +decide [infer_simple_type]

/-- Claim C6 counterexample: a declared unique-key column with values
[1, null, null] has no duplicated non-null value, yet validate_contract
reports a violation for it with duplicate_count = 1, because pandas
Series.duplicated() treats missing entries as duplicates of each other. -/
theorem unique_violation_fires_on_nulls :
    ¬ ((∃ e ∈ (validate_contract ⟨[("k", ⟨Dtype.obj, [some (Val.num 1), none, none]⟩)]⟩
            ⟨"d", [], [], ["k"], none⟩).unique_violations, e.column = "k")
        ↔ 0 < nonNullDupCount [some (Val.num 1), none, none])
    ∧ (validate_contract ⟨[("k", ⟨Dtype.obj, [some (Val.num 1), none, none]⟩)]⟩
        ⟨"d", [], [], ["k"], none⟩).unique_violations = [⟨"k", 1⟩] := by
  refine ⟨?_, by decide⟩
  decide

/-- Claim C6 amended: for a declared unique-key column present in the
table, validate_contract reports a unique_violations entry iff the
column contains duplicated entries with every null considered equal to
every other null, and every entry reported for that column carries
duplicate_count = dupCount of all entries, nulls included. -/
theorem unique_violations_characterization (df : DataFrame) (contract : Contract)
    (col : String) (s : Series)
    (hlook : df.cols.lookup col = some s)
    (hkey : col ∈ contract.unique_keys) :
    ((∃ e ∈ (validate_contract df contract).unique_violations, e.column = col)
      ↔ 0 < dupCount s.values)
    ∧ (∀ e ∈ (validate_contract df contract).unique_violations,
        e.column = col → e.duplicate_count = dupCount s.values) := by
  have huv : (validate_contract df contract).unique_violations =
      contract.unique_keys.filterMap (fun c =>
        match df.cols.lookup c with
        | none => none
        | some t =>
          if dupCount t.values > 0 then some ⟨c, dupCount t.values⟩ else none) := rfl
  rw [huv]
  constructor
  · constructor
    · rintro ⟨e, he, hcol⟩
      obtain ⟨a, _, hfa⟩ := List.mem_filterMap.mp he
      cases hla : df.cols.lookup a with
      | none => rw [hla] at hfa; exact Option.noConfusion hfa
      | some sa =>
        rw [hla] at hfa
        dsimp only at hfa
        by_cases hd : dupCount sa.values > 0
        · rw [if_pos hd] at hfa
          obtain rfl := Option.some.inj hfa
          obtain rfl : a = col := hcol
          rw [hlook] at hla
          obtain rfl := Option.some.inj hla
          exact hd
        · rw [if_neg hd] at hfa; exact Option.noConfusion hfa
    · intro hd
      refine ⟨⟨col, dupCount s.values⟩, ?_, rfl⟩
      apply List.mem_filterMap.mpr
      refine ⟨col, hkey, ?_⟩
      rw [hlook]
      simp [hd]
  · intro e he hcol
    obtain ⟨a, _, hfa⟩ := List.mem_filterMap.mp he
    cases hla : df.cols.lookup a with
    | none => rw [hla] at hfa; exact Option.noConfusion hfa
    | some sa =>
      rw [hla] at hfa
      dsimp only at hfa
      by_cases hd : dupCount sa.values > 0
      · rw [if_pos hd] at hfa
        obtain rfl := Option.some.inj hfa
        obtain rfl : a = col := hcol
        rw [hlook] at hla
        obtain rfl := Option.some.inj hla
        rfl
      · rw [if_neg hd] at hfa; exact Option.noConfusion hfa

/-- Witness for the amended claim C6: a column with duplicated nulls is
reported as a uniqueness violation. -/
theorem unique_violations_characterization_witness :
    ∃ e ∈ (validate_contract ⟨[("u", ⟨Dtype.obj, [none, none]⟩)]⟩
        ⟨"d2", [], [], ["u"], none⟩).unique_violations, e.column = "u" :=
  (unique_violations_characterization ⟨[("u", ⟨Dtype.obj, [none, none]⟩)]⟩
    ⟨"d2", [], [], ["u"], none⟩ "u" ⟨Dtype.obj, [none, none]⟩ rfl
    (by decide)).1.mpr (by decide)

/-- Claim C1: on a dataset name with no stored baseline (an unreadable
baseline file is loaded as absent by _load_baseline), analyze_drift
returns exactly the creation marker {baseline_created: true,
has_drift: false, columns: []} and stores a baseline holding one entry
per numeric column with at least one non-null value — carrying that
column's mean, std (kept as std_sq), the 6 edges of its 5 equal-width
bins, and its 5 bin percentages — with no drift comparison performed on
that call and no error raised (the function is total). -/
theorem analyze_drift_first_run_creates_baseline (name : String) (df : DataFrame)
    (store : BaselineStore) (h : store name = none) :
    analyze_drift name df store =
      (⟨true, false, []⟩, saveBaseline store name ⟨name, build_numeric_baseline df⟩)
    ∧ (∀ n s, (n, s) ∈ df.cols → isNumeric s.dtype = true → s.dropna ≠ [] →
        (n, baselineColumnOf s) ∈ build_numeric_baseline df)
    ∧ (∀ n bc, (n, bc) ∈ build_numeric_baseline df →
        ∃ s, (n, s) ∈ df.cols ∧ isNumeric s.dtype = true ∧ s.dropna ≠ []
          ∧ bc = baselineColumnOf s)
    ∧ (∀ s : Series,
        (baselineColumnOf s).mean = listMean s.dropna
        ∧ (baselineColumnOf s).std_sq =
            (if 1 < s.dropna.length then popVar s.dropna else 0)
        ∧ (baselineColumnOf s).bins.length = 6
        ∧ (baselineColumnOf s).percents.length = 5
        ∧ ∀ i : ℕ, i + 1 < 6 →
            (baselineColumnOf s).bins.getD (i + 1) 0 - (baselineColumnOf s).bins.getD i 0
              = (binHigh s.dropna - binLow s.dropna) / 5) := by
  refine ⟨by simp [analyze_drift, h], ?_, ?_, ?_⟩
  · intro n s hmem hnum hne
    apply List.mem_map.mpr
    refine ⟨(n, s), List.mem_filter.mpr ⟨hmem, ?_⟩, rfl⟩
    simp [hnum, List.isEmpty_iff, hne]
  · intro n bc hmem
    obtain ⟨⟨n2, s⟩, hc, heq⟩ := List.mem_map.mp hmem
    obtain ⟨hcols, hpred⟩ := List.mem_filter.mp hc
    obtain ⟨rfl, rfl⟩ := Prod.mk.injEq .. ▸ heq
    simp only [Bool.and_eq_true, Bool.not_eq_true'] at hpred
    exact ⟨s, hcols, hpred.1, by simpa [List.isEmpty_iff] using hpred.2, rfl⟩
  · intro s
    refine ⟨rfl, ?_, ?_, ?_, ?_⟩
    · by_cases hlen : 1 < s.dropna.length
      · simp [baselineColumnOf, hlen]
      · simp [baselineColumnOf, hlen]
    · simp [baselineColumnOf, linspace]
    · show (histPercents (linspace (binLow s.dropna) (binHigh s.dropna) 6) s.dropna).length = 5
      rw [histPercents_length]
      simp [linspace]
    · intro i hi
      show (linspace (binLow s.dropna) (binHigh s.dropna) 6).getD (i + 1) 0
          - (linspace (binLow s.dropna) (binHigh s.dropna) 6).getD i 0
          = (binHigh s.dropna - binLow s.dropna) / 5
      rw [linspace_getD _ _ 6 (i + 1) hi, linspace_getD _ _ 6 i (by omega)]
      push_cast
      ring

/-- Witness for claim C1: a store with no baseline for the name, a frame
with one numeric column. -/
theorem analyze_drift_first_run_witness :
    (analyze_drift "d" ⟨[("x", ⟨Dtype.int, [some (Val.num 1), some (Val.num 2)]⟩)]⟩
        (fun _ => none)).1 = ⟨true, false, []⟩ := by
  have h := (analyze_drift_first_run_creates_baseline "d"
    ⟨[("x", ⟨Dtype.int, [some (Val.num 1), some (Val.num 2)]⟩)]⟩
    (fun _ => none) rfl).1
  rw [h]

/-- Claim C3: on a run with an existing baseline, every numeric column
of the frame is reported through driftEntryOf; a column absent from the
baseline is reported with drift = false; a column present in both with
at least one non-null value (against the 5-bin/6-edge shape this code
writes into every baseline) is reported with psi equal to the computed
PSI, drift = true iff PSI > 0.25, and psi_severity "none" iff
PSI < 0.10, "moderate" iff 0.10 <= PSI < 0.25, "severe" iff
PSI >= 0.25; run-level has_drift is true iff some reported column has
drift = true. -/
theorem analyze_drift_psi_classification (name : String) (df : DataFrame)
    (store : BaselineStore) (b : Baseline) (hb : store name = some b) :
    ((analyze_drift name df store).1.baseline_created = false)
    ∧ (∀ n s, (n, s) ∈ df.cols → isNumeric s.dtype = true →
        driftEntryOf b n s ∈ (analyze_drift name df store).1.columns)
    ∧ (∀ n s, b.columns.lookup n = none → (driftEntryOf b n s).drift = false)
    ∧ (∀ n s bc, b.columns.lookup n = some bc → s.dropna ≠ [] →
        bc.bins.length = 6 → bc.percents.length = 5 →
        (driftEntryOf b n s).psi =
            some (compute_psi bc.percents (histPercents bc.bins s.dropna))
        ∧ ((driftEntryOf b n s).drift = true
            ↔ compute_psi bc.percents (histPercents bc.bins s.dropna) > 1 / 4)
        ∧ ((driftEntryOf b n s).psi_severity = "none"
            ↔ compute_psi bc.percents (histPercents bc.bins s.dropna) < 1 / 10)
        ∧ ((driftEntryOf b n s).psi_severity = "moderate"
            ↔ 1 / 10 ≤ compute_psi bc.percents (histPercents bc.bins s.dropna)
              ∧ compute_psi bc.percents (histPercents bc.bins s.dropna) < 1 / 4)
        ∧ ((driftEntryOf b n s).psi_severity = "severe"
            ↔ 1 / 4 ≤ compute_psi bc.percents (histPercents bc.bins s.dropna)))
    ∧ ((analyze_drift name df store).1.has_drift = true
        ↔ ∃ e ∈ (analyze_drift name df store).1.columns, e.drift = true) := by
  have hcols : (analyze_drift name df store).1.columns =
      (df.cols.filter fun c => isNumeric c.2.dtype).map fun c => driftEntryOf b c.1 c.2 := by
    simp [analyze_drift, hb]
  refine ⟨by simp [analyze_drift, hb], ?_, ?_, ?_, ?_⟩
  · intro n s hmem hnum
    rw [hcols]
    exact List.mem_map.mpr ⟨(n, s), List.mem_filter.mpr ⟨hmem, hnum⟩, rfl⟩
  · intro n s hnone
    simp [driftEntryOf, hnone]
  · intro n s bc hlook hne hbl hpl
    have hbne : bc.bins ≠ [] := by
      intro hx; rw [hx] at hbl; exact absurd hbl (by decide)
    have hpne : bc.percents ≠ [] := by
      intro hx; rw [hx] at hpl; exact absurd hpl (by decide)
    have hcl : (histPercents bc.bins s.dropna).length = bc.percents.length := by
      rw [histPercents_length, hbl, hpl]
    have hentry : driftEntryOf b n s =
        ⟨n, some bc.mean, some (listMean s.dropna),
          (if bc.mean ≠ 0 then some ((listMean s.dropna - bc.mean) / bc.mean) else none),
          some (compute_psi bc.percents (histPercents bc.bins s.dropna)),
          psi_severity (compute_psi bc.percents (histPercents bc.bins s.dropna)),
          if compute_psi bc.percents (histPercents bc.bins s.dropna) > 1 / 4 then true
          else false⟩ := by
      simp only [driftEntryOf, hlook]
      rw [if_neg, if_neg]
      · rw [hcl]
        simp
      · simp [List.isEmpty_iff, hne, hbne, hpne]
    rw [hentry]
    refine ⟨rfl, ?_, ?_, ?_, ?_⟩
    · by_cases hψ : compute_psi bc.percents (histPercents bc.bins s.dropna) > 1 / 4 <;>
        simp [hψ]
    · show psi_severity _ = "none" ↔ _
      unfold psi_severity
      rcases lt_or_le (compute_psi bc.percents (histPercents bc.bins s.dropna)) (1 / 10) with
        h1 | h1
      · rw [if_pos h1]
        exact iff_of_true rfl h1
      · rw [if_neg (not_lt.mpr h1)]
        rcases lt_or_le (compute_psi bc.percents (histPercents bc.bins s.dropna)) (1 / 4) with
          h2 | h2
        · rw [if_pos h2]
          exact iff_of_false (by decide) (not_lt.mpr h1)
        · rw [if_neg (not_lt.mpr h2)]
          exact iff_of_false (by decide) (not_lt.mpr h1)
    · show psi_severity _ = "moderate" ↔ _
      unfold psi_severity
      rcases lt_or_le (compute_psi bc.percents (histPercents bc.bins s.dropna)) (1 / 10) with
        h1 | h1
      · rw [if_pos h1]
        exact iff_of_false (by decide) (by rintro ⟨hge, -⟩; linarith)
      · rw [if_neg (not_lt.mpr h1)]
        rcases lt_or_le (compute_psi bc.percents (histPercents bc.bins s.dropna)) (1 / 4) with
          h2 | h2
        · rw [if_pos h2]
          exact iff_of_true rfl ⟨h1, h2⟩
        · rw [if_neg (not_lt.mpr h2)]
          exact iff_of_false (by decide) (by rintro ⟨-, hlt⟩; linarith)
    · show psi_severity _ = "severe" ↔ _
      unfold psi_severity
      rcases lt_or_le (compute_psi bc.percents (histPercents bc.bins s.dropna)) (1 / 10) with
        h1 | h1
      · rw [if_pos h1]
        exact iff_of_false (by decide) (by intro hge; linarith)
      · rw [if_neg (not_lt.mpr h1)]
        rcases lt_or_le (compute_psi bc.percents (histPercents bc.bins s.dropna)) (1 / 4) with
          h2 | h2
        · rw [if_pos h2]
          exact iff_of_false (by decide) (by intro hge; linarith)
        · rw [if_neg (not_lt.mpr h2)]
          exact iff_of_true rfl h2
  · have hhd : (analyze_drift name df store).1.has_drift =
        ((df.cols.filter fun c => isNumeric c.2.dtype).map
          fun c => driftEntryOf b c.1 c.2).any DriftEntry.drift := by
      simp [analyze_drift, hb]
    rw [hhd, hcols, List.any_eq_true]

/-- Witness for claim C3: a stored baseline with the shape this code
writes, compared against a one-column frame. -/
theorem analyze_drift_psi_classification_witness :
    (driftEntryOf ⟨"d", [("x", ⟨0, 0, 2, [0, 1, 2, 3, 4, 5], [1, 0, 0, 0, 0]⟩)]⟩ "x"
        ⟨Dtype.int, [some (Val.num 1), some (Val.num 2)]⟩).psi =
      some (compute_psi [1, 0, 0, 0, 0]
        (histPercents [0, 1, 2, 3, 4, 5]
          (Series.dropna ⟨Dtype.int, [some (Val.num 1), some (Val.num 2)]⟩))) :=
  ((analyze_drift_psi_classification "d"
      ⟨[("x", ⟨Dtype.int, [some (Val.num 1), some (Val.num 2)]⟩)]⟩
      (fun n => if n = "d"
        then some ⟨"d", [("x", ⟨0, 0, 2, [0, 1, 2, 3, 4, 5], [1, 0, 0, 0, 0]⟩)]⟩ else none)
      ⟨"d", [("x", ⟨0, 0, 2, [0, 1, 2, 3, 4, 5], [1, 0, 0, 0, 0]⟩)]⟩ rfl).2.2.2.1
    "x" ⟨Dtype.int, [some (Val.num 1), some (Val.num 2)]⟩
    ⟨0, 0, 2, [0, 1, 2, 3, 4, 5], [1, 0, 0, 0, 0]⟩
    rfl (by decide) rfl rfl).1

/-- Claim C9: when no alert rule fires — dataset-level ratios at or
below the 5% missing / 5% outlier / 2% duplicate warn thresholds, no
column with moderate or severe drift severity, a (truthy) PII type, or
missing ratio above 5%, no PII at dataset level, no policy failures and
a passing policy — build_alerts returns exactly the single
informational ALL_GOOD alert; and build_alerts never returns an empty
list. -/
theorem build_alerts_all_good_when_clean :
    (∀ r : Report,
      missingRateOf r ≤ 5 / 100 → outlierRateOf r ≤ 5 / 100 →
      duplicateRateOf r ≤ 2 / 100 →
      (∀ c ∈ r.columns, driftSevFires c = false ∧ strTruthy c.pii_type = none
        ∧ ∀ q : ℚ, c.missing_rate = some q → q ≤ 5 / 100) →
      hasPiiOf r = false → r.policy_failures = [] → r.policy_passed.getD true = true →
      build_alerts r = [allGoodAlert])
    ∧ (∀ r : Report, build_alerts r ≠ []) := by
  constructor
  · intro r h1 h2 h3 h4 h5 h6 h7
    have e1 : (if missingRateOf r > 5 / 100 then
        [(⟨"warning", "HIGH_MISSING_RATIO", msgHighMissing (missingRateOf r)⟩ : Alert)]
        else []) = [] := if_neg (not_lt.mpr h1)
    have e2 : (if outlierRateOf r > 5 / 100 then
        [(⟨"warning", "HIGH_OUTLIER_RATIO", msgHighOutlier (outlierRateOf r)⟩ : Alert)]
        else []) = [] := if_neg (not_lt.mpr h2)
    have e3 : (if duplicateRateOf r > 2 / 100 then
        [(⟨"warning", "HIGH_DUPLICATE_RATIO", msgHighDuplicate (duplicateRateOf r)⟩ : Alert)]
        else []) = [] := if_neg (not_lt.mpr h3)
    have ecol : ∀ c ∈ r.columns, columnAlerts c = [] := by
      intro c hc
      obtain ⟨hdrift, hpii, hmiss⟩ := h4 c hc
      unfold columnAlerts
      dsimp only
      have d1 : (match c.drift_severity with
          | some s =>
            if s = "moderate" || s = "severe" then
              [(⟨if s = "severe" then "error" else "warning", "DRIFT_DETECTED",
                msgDrift (((strTruthy c.name).orElse fun _ => strTruthy c.column).getD
                  "<unknown>") s c.psi⟩ : Alert)]
            else []
          | none => []) = [] := by
        cases hds : c.drift_severity with
        | none => rfl
        | some s =>
          have hsf : (s = "moderate" || s = "severe") = false := by
            have := hdrift
            rw [driftSevFires, hds] at this
            exact this
          dsimp only
          rw [hsf]
          simp
      have d2 : (match strTruthy c.pii_type with
          | some t => [(⟨"warning", "PII_DETECTED_COLUMN",
              msgPiiColumn t (((strTruthy c.name).orElse fun _ => strTruthy c.column).getD
                "<unknown>")⟩ : Alert)]
          | none => []) = [] := by
        rw [hpii]
      have d3 : (match c.missing_rate with
          | some q =>
            if q > 5 / 100 then
              [(⟨"warning", "COLUMN_MISSING_HIGH",
                msgColumnMissing (((strTruthy c.name).orElse fun _ => strTruthy c.column).getD
                  "<unknown>") q⟩ : Alert)]
            else []
          | none => []) = [] := by
        cases hmr : c.missing_rate with
        | none => rfl
        | some q =>
          dsimp only
          rw [if_neg (not_lt.mpr (hmiss q hmr))]
      rw [d1, d2, d3]
      rfl
    have ecolA : (r.columns.map columnAlerts).flatten = [] := by
      rw [List.flatten_eq_nil_iff]
      intro l hl
      obtain ⟨c, hc, rfl⟩ := List.mem_map.mp hl
      exact ecol c hc
    have epii : piiAlerts r = [] := by simp [piiAlerts, h5]
    have epol : policyAlerts r = [] := by simp [policyAlerts, h6, h7]
    show build_alerts r = [allGoodAlert]
    unfold build_alerts
    dsimp only
    rw [e1, e2, e3, ecolA, epii, epol]
    rfl
  · intro r
    have hgen : ∀ l : List Alert, (if l.isEmpty then [allGoodAlert] else l) ≠ [] := by
      intro l
      cases hl : l.isEmpty with
      | true => simp
      | false =>
        rw [if_neg (by simp [hl])]
        exact fun hx => by rw [hx] at hl; exact Bool.noConfusion hl
    show build_alerts r ≠ []
    unfold build_alerts
    dsimp only
    exact hgen _

/-- Witness for claim C9: an entirely clean report. -/
theorem build_alerts_all_good_witness :
    build_alerts ⟨none, none, none, none, [], [], none, none, [], none⟩ = [allGoodAlert] :=
  build_alerts_all_good_when_clean.1 ⟨none, none, none, none, [], [], none, none, [], none⟩
    (by norm_num [missingRateOf]) (by norm_num [outlierRateOf])
    (by norm_num [duplicateRateOf]) (by intro c hc; exact absurd hc (List.not_mem_nil c))
    (by rfl) rfl rfl

end DataLakeQuality
